import Mathlib

/-!
Verification development for the Hayt2 chat-bot command core.

The definitions below are a shallow embedding of the two command handlers of
the repository:

* `Todo.handle_command` embeds `handle_command` from `src/todo.rs`;
* `Bug.handle_message` embeds `handle_message` from `src/bug.rs`, including
  the inline pest grammar of `BugReportParser`.

Rust `HashMap`s are modelled as association lists (the map operations used by
the source are key-lookup, insert-or-update and remove, none of which depend
on iteration order; where the source iterates over a map, the model iterates
over the association list).  Rust `u32` values are modelled as `Nat` with
arithmetic taken modulo `2 ^ 32` at the operations where the source performs
`u32` arithmetic (release-mode wrapping semantics).  Code paths that panic in
the source (the `todo!()` arm, `unwrap`/`expect`) are modelled explicitly by
a `panicked` outcome.
-/

/-- The modulus of Rust `u32` arithmetic. -/
def U32MOD : Nat := 2 ^ 32

/-- The double-quote character, written via its code point. -/
def quoteChar : Char := Char.ofNat 34

/-- Whitespace as tested by Rust `char::is_whitespace` / stripped by
`str::trim`, restricted to the ASCII whitespace characters (the commands and
claims under study only involve ASCII input). -/
def rustWS (c : Char) : Bool := c = ' ' || c = '\t' || c = '\n' || c = '\r'

/-- Both-ends trim over a character list, as done by Rust `str::trim`. -/
def trimChars (l : List Char) : List Char :=
  ((l.dropWhile rustWS).reverse.dropWhile rustWS).reverse

/-- Rust `str::trim` on the string level. -/
def trimStr (s : String) : String := String.mk (trimChars s.toList)

/-- Rust `str::trim_matches('\x22')`: repeatedly strip the quote character
from both ends.  Used on each field extracted by the bug-report grammar. -/
def trimQuotes (s : String) : String :=
  String.mk (((s.toList.dropWhile (· = quoteChar)).reverse.dropWhile
    (· = quoteChar)).reverse)

/-- Escaping of a single character as done by Rust `Debug` formatting of
strings (`format!("{:?}", s)`).  The keys appearing in the claims are plain
ASCII; the `\u` escapes Rust applies to other control characters are not
reached by any claim and are not modelled. -/
def escapeDebugChar (c : Char) : List Char :=
  if c = quoteChar then ['\\', quoteChar]
  else if c = '\\' then ['\\', '\\']
  else if c = '\n' then ['\\', 'n']
  else if c = '\t' then ['\\', 't']
  else if c = '\r' then ['\\', 'r']
  else [c]

/-- Rust `format!("{:?}", s)` for a string `s`: the value surrounded by
double quotes, with the body escaped. -/
def rustDebug (s : String) : String :=
  String.mk (quoteChar :: (s.toList.map escapeDebugChar).flatten ++ [quoteChar])

/-- Exact ceiling of the base-10 logarithm: the value the source intends by
`f32::log10((max_priority + 1) as f32).ceil() as usize` in `todo.rs`.  The
source computes it through `f32`, whose rounding can diverge from the exact
value for large arguments; no theorem in this file depends on this
definition's agreement with the `f32` computation. -/
def ceilLog10 (n : Nat) : Nat :=
  if n ≤ 1 then 0 else (Nat.toDigits 10 (n - 1)).length

/-- Right-aligned decimal rendering in a fixed-width column, as done by the
format specifier of the print loop in `todo.rs`. -/
def padNum (width : Nat) (p : Nat) : String :=
  String.mk (List.replicate (width - (toString p).length) ' ') ++ toString p

namespace Todo

/-- A single TODO item, from `struct TodoItem` in `src/todo.rs`.  `priority`
is a `u32` in the source. -/
structure TodoItem where
  priority : Nat
  done : Bool
  category : Option String
  deriving DecidableEq

/-- The `Default` instance derived for `TodoItem` in the source: priority 0,
not done, no category. -/
def defaultItem : TodoItem := ⟨0, false, none⟩

/-- A user's TODO list, from `struct TodoList` in `src/todo.rs`.  The
`HashMap<String, TodoItem>` is modelled as an association list with string
keys. -/
structure TodoList where
  user_id : Nat
  items : List (String × TodoItem)
  deriving DecidableEq

/-- The empty TODO list of a fresh user, `TodoList::new`. -/
def emptyList (uid : Nat) : TodoList := ⟨uid, []⟩

/-- Key lookup in the association list modelling the item map. -/
def lookupKey (k : String) : List (String × TodoItem) → Option TodoItem
  | [] => none
  | kv :: rest => if kv.1 = k then some kv.2 else lookupKey k rest

/-- Insert-or-update at a key: replaces the value if the key is present,
appends a fresh binding otherwise.  Models `HashMap` insertion through
`entry(..).or_default()` followed by mutation. -/
def updateKey (k : String) (v : TodoItem) : List (String × TodoItem) →
    List (String × TodoItem)
  | [] => [(k, v)]
  | kv :: rest => if kv.1 = k then (k, v) :: rest else kv :: updateKey k v rest

/-- Key removal, modelling `HashMap::remove`. -/
def removeKey (k : String) : List (String × TodoItem) →
    List (String × TodoItem)
  | [] => []
  | kv :: rest => if kv.1 = k then rest else kv :: removeKey k rest

/-- The command variants of `enum TodoCommand` in `src/todo.rs`. -/
inductive TodoCommand where
  | print (category : Option String)
  | add (key : String) (category : Option String)
  | remove (key : String)
  | finish (key : String)

/-- The caller, carrying the fields of `poise` s `User` that the handler
reads: the id and the display name. -/
structure User where
  id : Nat
  name : String

/-- The category filter applied by the print arm:
`category.is_none() || val.category == category`. -/
def catFilter (category : Option String) (item : TodoItem) : Bool :=
  category.isNone || decide (item.category = category)

/-- The pairs collected by the print arm: the filtered items mapped to
`(priority, key)`. -/
def collectPairs (todo_list : TodoList) (category : Option String) :
    List (Nat × String) :=
  (todo_list.items.filter (fun kv => catFilter category kv.2)).map
    (fun kv => (kv.2.priority, kv.1))

/-- The comparison used by `sort_by_key(|(priority, _)| *priority)`. -/
def priLE (a b : Nat × String) : Prop := a.1 ≤ b.1

instance : DecidableRel priLE := fun a b => Nat.decLe a.1 b.1

instance : IsTotal (Nat × String) priLE := ⟨fun a b => Nat.le_total a.1 b.1⟩

instance : IsTrans (Nat × String) priLE :=
  ⟨fun _ _ _ h h' => Nat.le_trans h h'⟩

/-- The sequence of `(priority, key)` pairs in the order the print arm
renders them: stable ascending sort by priority, then reversed (the source
iterates the sorted vector with `.iter().rev()`). -/
def printOrder (todo_list : TodoList) (category : Option String) :
    List (Nat × String) :=
  (List.insertionSort priLE (collectPairs todo_list category)).reverse

/-- The maximum priority over all items of the list (unfiltered), 0 for an
empty list: `values().map(|item| item.priority).max().unwrap_or_default()`. -/
def maxPriority (todo_list : TodoList) : Nat :=
  todo_list.items.foldr (fun kv m => max kv.2.priority m) 0

/-- One rendered line of the TODO list display. -/
def renderLine (todo_list : TodoList) (category : Option String)
    (width : Nat) (pk : Nat × String) : String :=
  let item := (lookupKey pk.2 todo_list.items).getD defaultItem
  let check_mark := if item.done then "X" else " "
  let category_str :=
    if category.isSome || item.category.isNone then ""
    else " [" ++ item.category.getD "" ++ "]"
  "(" ++ padNum width item.priority ++ ") [" ++ check_mark ++ "]" ++
    category_str ++ " " ++ pk.2 ++ "\n"

/-- The full response of the print arm. -/
def printResponse (todo_list : TodoList) (category : Option String)
    (user_name : String) : String :=
  let header := match category with
    | some c => "TODO list for " ++ user_name ++ " in category [" ++ c ++
        "]:\n"
    | none => "TODO list for " ++ user_name ++ ":\n"
  let width := ceilLog10 (maxPriority todo_list + 1)
  header ++ "```\n" ++
    String.join ((printOrder todo_list category).map
      (renderLine todo_list category width)) ++ "```\n"

/-- The core transition function `handle_command` of `src/todo.rs`.  Returns
the updated list together with the response text. -/
def handle_command (command : TodoCommand) (todo_list : TodoList)
    (author : User) : TodoList × String :=
  match command with
  | .add key category =>
      let old := (lookupKey key todo_list.items).getD defaultItem
      let p := (old.priority + 1) % U32MOD
      let item : TodoItem :=
        ⟨p, old.done, if category.isSome then category else old.category⟩
      let key_display := match item.category with
        | some c => "[" ++ c ++ "] " ++ rustDebug key
        | none => rustDebug key
      let response :=
        if p = 1 then "Added item " ++ key_display ++ " to your list"
        else "Updated item " ++ key_display ++ ", priority is " ++ toString p
      (⟨todo_list.user_id, updateKey key item todo_list.items⟩, response)
  | .remove key =>
      (⟨todo_list.user_id, removeKey key todo_list.items⟩,
        "Removed " ++ rustDebug key ++ " from your list")
  | .finish key =>
      let old := (lookupKey key todo_list.items).getD defaultItem
      let item : TodoItem := ⟨old.priority, true, old.category⟩
      (⟨todo_list.user_id, updateKey key item todo_list.items⟩,
        "Marked " ++ rustDebug key ++ " as done")
  | .print category =>
      (todo_list, printResponse todo_list category author.name)

/-- The priority recorded for key `k`, 0 when the key is absent. -/
def priorityOf (k : String) (todo_list : TodoList) : Nat :=
  match lookupKey k todo_list.items with
  | some item => item.priority
  | none => 0

/-- Applying `Add(k)` (without a category) `n` times in a row. -/
def addN (k : String) (author : User) : Nat → TodoList → TodoList
  | 0, st => st
  | n + 1, st => (handle_command (.add k none) (addN k author n st) author).1

/-- The response produced by the `m`-th of a row of `Add(k)` invocations
(1-indexed): the add is applied to the state reached after `m - 1` adds. -/
def addRespAt (k : String) (author : User) (m : Nat) (st : TodoList) :
    String :=
  (handle_command (.add k none) (addN k author (m - 1) st) author).2

end Todo

namespace Bug

/-- Bug status, from `enum BugStatus` in `src/bug.rs`.  `Open` is the
`Default`. -/
inductive BugStatus where
  | open
  | closed
  deriving DecidableEq

/-- The `Display` rendering of a status. -/
def statusStr : BugStatus → String
  | .open => "Open"
  | .closed => "Closed"

/-- A single bug, from `struct BugItem` in `src/bug.rs`.  `number` and
`priority` are `u32`, `reporter` and the `plus_ones` entries are user ids. -/
structure BugItem where
  number : Nat
  priority : Nat
  status : BugStatus
  labels : List String
  name : String
  summary : String
  details : String
  reporter : Nat
  plus_ones : List Nat
  deriving DecidableEq

/-- The derived `Default` for `BugItem`: zeroes, `Open`, empty collections. -/
def defaultBugItem : BugItem := ⟨0, 0, .open, [], "", "", "", 0, []⟩

/-- The global bug list, from `struct BugList`: a `HashMap<u32, BugItem>`
modelled as an association list with numeric keys. -/
structure BugList where
  items : List (Nat × BugItem)
  deriving DecidableEq

/-- The empty bug list, `BugList::new`. -/
def emptyBugList : BugList := ⟨[]⟩

/-- Key lookup in the bug map. -/
def lookupBug (k : Nat) : List (Nat × BugItem) → Option BugItem
  | [] => none
  | kv :: rest => if kv.1 = k then some kv.2 else lookupBug k rest

/-- Insert-or-update at a numeric key, modelling `HashMap::insert`. -/
def updateBug (k : Nat) (v : BugItem) : List (Nat × BugItem) →
    List (Nat × BugItem)
  | [] => [(k, v)]
  | kv :: rest => if kv.1 = k then (k, v) :: rest else kv :: updateBug k v rest

/-- Does the character list start with the three-character marker `\x22\x22\x22`
(the `TRIPLE_QUOTE` token of the grammar)? -/
def startsWithTriple (l : List Char) : Bool :=
  match l with
  | a :: b :: c :: _ => a = quoteChar && b = quoteChar && c = quoteChar
  | _ => false

/-- Scanning the body of a triple-quoted literal: the characters after the
opening marker, up to the next occurrence of the marker.  Returns the body
and the rest after the closing marker, or `none` when no closing marker
exists (the greedy repetition of the grammar reaches the end of input and
the required closing `TRIPLE_QUOTE` then fails). -/
def scanTriple : List Char → Option (List Char × List Char)
  | [] => none
  | c :: cs =>
      if startsWithTriple (c :: cs) then some ([], cs.drop 2)
      else (scanTriple cs).map (fun br => (c :: br.1, br.2))

/-- Scanning the body of a double-quoted literal up to the next quote;
`none` when the closing quote is missing. -/
def scanDouble : List Char → Option (List Char × List Char)
  | [] => none
  | c :: cs =>
      if c = quoteChar then some ([], cs)
      else (scanDouble cs).map (fun br => (c :: br.1, br.2))

/-- A bare literal: the maximal run of non-space characters (`(!WS ~ ANY)*`
with `WS = " "`), possibly empty.  Returns the matched text and the rest. -/
def bareLit (l : List Char) : List Char × List Char :=
  (l.takeWhile (· ≠ ' '), l.dropWhile (· ≠ ' '))

/-- The fallback of the committed choice after a failed triple-quoted
attempt: a double-quoted literal if one closes, else a bare literal.  The
matched text includes the quote markers, exactly as pest's `as_str` span
does. -/
def doubleOrBare (l : List Char) : List Char × List Char :=
  match l with
  | [] => ([], [])
  | c :: cs =>
      if c = quoteChar then
        match scanDouble cs with
        | some br => (quoteChar :: br.1 ++ [quoteChar], br.2)
        | none => bareLit l
      else bareLit l

/-- The `string_literal` rule: ordered (committed) choice of triple-quoted,
double-quoted and bare literal.  Never fails, because the bare alternative
accepts the empty string. -/
def stringLiteral (l : List Char) : List Char × List Char :=
  if startsWithTriple l then
    match scanTriple (l.drop 3) with
    | some br =>
        (quoteChar :: quoteChar :: quoteChar :: br.1 ++
          [quoteChar, quoteChar, quoteChar], br.2)
    | none => doubleOrBare l
  else doubleOrBare l

/-- The `bug_report` rule: three `string_literal`s separated by single
spaces.  PEG choice is committed: a literal that succeeded is never re-tried
when the following separator fails.  The rule is not anchored at the end of
input, so characters remaining after the third literal are ignored. -/
def parseBugReport3 (l : List Char) :
    Option (List Char × List Char × List Char) :=
  let f1 := stringLiteral l
  match f1.2 with
  | c1 :: r1 =>
      if c1 = ' ' then
        let f2 := stringLiteral r1
        match f2.2 with
        | c2 :: r2 =>
            if c2 = ' ' then
              let f3 := stringLiteral r2
              some (f1.1, f2.1, f3.1)
            else none
        | [] => none
      else none
  | [] => none

/-- String-level wrapper of the bug-report grammar: the three raw matched
fields (quote markers still present), or `none` on parse failure. -/
def parseBugReport (s : String) : Option (String × String × String) :=
  (parseBugReport3 s.toList).map
    (fun f => (String.mk f.1, String.mk f.2.1, String.mk f.2.2))

/-- Rust `str::parse::<u32>` as used by `normalize_bug_number`: an optional
leading plus sign, then one or more decimal digits, and the value must fit
in a `u32`. -/
def parseU32 (l : List Char) : Option Nat :=
  let digits := match l with
    | c :: cs => if c = '+' then cs else l
    | [] => []
  if digits.isEmpty then none
  else if digits.all (·.isDigit) then
    let v := digits.foldl (fun acc c => acc * 10 + (c.toNat - 48)) 0
    if v < U32MOD then some v else none
  else none

/-- The function `normalize_bug_number` of `src/bug.rs`: trim, then parse as
`u32`; `none` models the `anyhow` error. -/
def normalize_bug_number (key : String) : Option Nat :=
  parseU32 (trimChars key.toList)

/-- The `PlusOne` arm of `handle_message`, given the normalized bug number
and the raw argument text (used verbatim in the not-found message): append
the caller to `plus_ones` and report `len() - 1` measured after the push. -/
def plusOneArm (user_id : Nat) (bug_number : Nat) (rest : String)
    (bug_list : BugList) : BugList × String :=
  match lookupBug bug_number bug_list.items with
  | some entry =>
      let entry' : BugItem :=
        ⟨entry.number, entry.priority, entry.status, entry.labels,
          entry.name, entry.summary, entry.details, entry.reporter,
          entry.plus_ones ++ [user_id]⟩
      (⟨updateBug bug_number entry' bug_list.items⟩,
        "I\x27m sorry to hear that you\x27re also experiencing this issue.\nAt least you\x27ve got " ++
          toString ((entry.plus_ones ++ [user_id]).length - 1) ++
          " other(s) for company.")
  | none =>
      (bug_list,
        "I couldn\x27t find a bug with the number " ++ rest ++
          " in the global list.")

/-- The `Print` arm for a single bug number. -/
def printArm (bug_number : Nat) (rest : String) (bug_list : BugList) :
    BugList × String :=
  match lookupBug bug_number bug_list.items with
  | some entry =>
      (bug_list,
        "#" ++ rest ++ " " ++ entry.name ++ "\n" ++
          entry.summary ++ ":\n" ++
          entry.details ++ ":\n" ++
          "Priority: " ++ toString entry.priority ++ "\n" ++
          "Status: " ++ statusStr entry.status ++ "\n" ++
          "Labels: " ++ String.intercalate ", " entry.labels ++ "\n" ++
          "Reporter: " ++ toString entry.reporter ++ "\n" ++
          "Plus Ones: " ++ toString entry.plus_ones.length ++ "\n")
  | none =>
      (bug_list,
        "I couldn\x27t find a bug with the number " ++ rest ++
          " in the global list.")

/-- The `PrintAll` arm: every entry whose status is not `Closed`, rendered
in map order and concatenated without separators. -/
def printAllResponse (bug_list : BugList) : String :=
  String.join ((bug_list.items.filter
      (fun kv => kv.2.status ≠ .closed)).map
    (fun kv =>
      "#" ++ toString kv.2.number ++ " " ++ kv.2.name ++ "\t" ++
        kv.2.summary ++ "\t(" ++ toString kv.2.plus_ones.length ++
        " +1s)\t[" ++ String.intercalate ", " kv.2.labels ++ "]"))

/-- The outcome of `handle_message`: a normal response with the updated
list, a propagated `anyhow` error carrying its message, or a panic (the
`todo!()` arm and failed `unwrap`s). -/
inductive BugOutcome where
  | ok (bug_list : BugList) (response : String)
  | err (msg : String)
  | panicked
  deriving DecidableEq

/-- Splitting at the first whitespace character, Rust
`str::split_once(char::is_whitespace)`: the text before the first whitespace
character and everything after that character; `none` when no whitespace
occurs. -/
def splitOnceWS : List Char → Option (List Char × List Char)
  | [] => none
  | c :: cs =>
      if rustWS c then some ([], cs)
      else (splitOnceWS cs).map (fun ab => (c :: ab.1, ab.2))

/-- Stripping a literal text from the front of a character list, Rust
`str::strip_prefix`. -/
def stripLit : List Char → List Char → Option (List Char)
  | [], l => some l
  | _ :: _, [] => none
  | p :: ps, c :: cs => if c = p then stripLit ps cs else none

/-- The command variants of the local `enum BugCommand` in
`handle_message`. -/
inductive BugCommand where
  | report
  | plusOne
  | print
  | printAll
  | help

/-- The classifier of `handle_message`: the `match` over
`body.split_once(char::is_whitespace)` that selects the command and the
argument text. -/
def classify (body : String) : BugCommand × String :=
  match splitOnceWS body.toList with
  | some wr =>
      let word := String.mk wr.1
      let rest := String.mk wr.2
      if word = "" || word = "show" || word = "print" || word = "display"
        then (.print, rest)
      else if word = "report" || word = "add" then (.report, rest)
      else if word = "+1" then (.plusOne, rest)
      else (.help, body)
  | none => if body = "" then (.printAll, body) else (.report, body)

/-- The core handler `handle_message` of `src/bug.rs`.  The caller's id and
the full message content are passed explicitly; the `!bug` prefix is
stripped with `unwrap` (a panic when absent), the body trimmed, classified,
and the selected arm executed.  Two arms panic: the `Help` arm of the
source is `todo!(..)`, and the `Report` arm panics on every successful
parse, because the source calls `next()` three times on the top-level
`Pairs` returned by `BugReportParser::parse` without `into_inner()`.  Pest
returns a single top-level pair (the whole `bug_report` match), so the
first `next()` yields that pair and the second yields `None`, on which
`expect("parser says this exists")` panics before any bug is inserted.
A failed parse is an `anyhow` error, propagated before the panic point. -/
def handle_message (bug_list : BugList) (user_id : Nat) (content : String) :
    BugOutcome :=
  match stripLit "!bug".toList content.toList with
  | none => .panicked
  | some bodyRaw =>
      let body := String.mk (trimChars bodyRaw)
      let cr := classify body
      match cr.1 with
      | .report =>
          match parseBugReport (trimStr cr.2) with
          | none => .err "couldn\x27t parse a user-submitted bug report"
          | some _ => .panicked
      | .print =>
          match normalize_bug_number cr.2 with
          | none => .err ("couldn\x27t parse bug number from user input \"" ++
              cr.2 ++ "\"")
          | some n =>
              let sr := printArm n cr.2 bug_list
              .ok sr.1 sr.2
      | .plusOne =>
          match normalize_bug_number cr.2 with
          | none => .err ("couldn\x27t parse bug number from user input \"" ++
              cr.2 ++ "\"")
          | some n =>
              let sr := plusOneArm user_id n cr.2 bug_list
              .ok sr.1 sr.2
      | .printAll => .ok bug_list (printAllResponse bug_list)
      | .help => .panicked

end Bug

/-- A one-bug list used to instantiate the `PlusOne` theorem: bug number 1,
reported by user 3, with one existing plus-one from user 5. -/
def plusOneState : Bug.BugList :=
  ⟨[(1, ⟨1, 0, .open, [], "n", "s", "d", 3, [5]⟩)]⟩

/-- A two-item TODO list with distinct priorities, used to instantiate the
print-ordering theorem. -/
def twoItemState : Todo.TodoList :=
  ⟨0, [("a", ⟨2, false, none⟩), ("b", ⟨1, false, none⟩)]⟩

open Todo Bug

theorem lookup_updateKey_self (k : String) (v : TodoItem) :
    ∀ l, lookupKey k (updateKey k v l) = some v := by
  intro l
  induction l with
  | nil => simp [lookupKey, updateKey]
  | cons kv rest ih =>
      by_cases h : kv.1 = k
      · simp [lookupKey, updateKey, h]
      · simp [lookupKey, updateKey, h, ih]

theorem lookup_updateKey_ne (k k' : String) (v : TodoItem) (hne : k' ≠ k) :
    ∀ l, lookupKey k' (updateKey k v l) = lookupKey k' l := by
  intro l
  have hkk : ¬ k = k' := fun e => hne e.symm
  induction l with
  | nil => simp [lookupKey, updateKey, hkk]
  | cons kv rest ih =>
      by_cases h : kv.1 = k
      · subst h
        simp [lookupKey, updateKey, hkk]
      · simp [lookupKey, updateKey, h, ih]

theorem lookupBug_updateBug_self (k : Nat) (v : BugItem) :
    ∀ l, lookupBug k (updateBug k v l) = some v := by
  intro l
  induction l with
  | nil => simp [lookupBug, updateBug]
  | cons kv rest ih =>
      by_cases h : kv.1 = k
      · simp [lookupBug, updateBug, h]
      · simp [lookupBug, updateBug, h, ih]

theorem lookupBug_updateBug_ne (k k' : Nat) (v : BugItem) (hne : k' ≠ k) :
    ∀ l, lookupBug k' (updateBug k v l) = lookupBug k' l := by
  intro l
  have hkk : ¬ k = k' := fun e => hne e.symm
  induction l with
  | nil => simp [lookupBug, updateBug, hkk]
  | cons kv rest ih =>
      by_cases h : kv.1 = k
      · subst h
        simp [lookupBug, updateBug, hkk]
      · simp [lookupBug, updateBug, h, ih]

theorem one_mod_u32 : 1 % U32MOD = 1 := Nat.mod_eq_of_lt (by norm_num [U32MOD])

theorem addN_getD (k : String) (a : User) (st : TodoList)
    (h : lookupKey k st.items = none) :
    ∀ n, (lookupKey k (addN k a n st).items).getD defaultItem =
      ⟨n % U32MOD, false, none⟩ := by
  intro n
  induction n with
  | zero => simp [addN, h, defaultItem]
  | succ m ih =>
      simp only [addN, handle_command]
      rw [lookup_updateKey_self]
      rw [ih]
      simp only [Option.getD_some, Option.isSome_none, Bool.false_eq_true,
        if_false]
      rw [Nat.add_mod m 1, one_mod_u32]

theorem addN_lookup (k : String) (a : User) (st : TodoList)
    (h : lookupKey k st.items = none) (n : Nat) (hn : 1 ≤ n) :
    lookupKey k (addN k a n st).items = some ⟨n % U32MOD, false, none⟩ := by
  cases n with
  | zero => omega
  | succ m =>
      simp only [addN, handle_command]
      rw [lookup_updateKey_self, addN_getD k a st h m]
      simp only [Option.isSome_none, Bool.false_eq_true, if_false]
      rw [Nat.add_mod m 1, one_mod_u32]

theorem addN_priorityOf (k : String) (a : User) (st : TodoList)
    (h : lookupKey k st.items = none) (n : Nat) (hn : 1 ≤ n) :
    priorityOf k (addN k a n st) = n % U32MOD := by
  simp [priorityOf, addN_lookup k a st h n hn]

theorem printOrder_pairwise_ge (st : TodoList) (cat : Option String) :
    (printOrder st cat).Pairwise (fun a b => b.1 ≤ a.1) := by
  rw [printOrder, List.pairwise_reverse]
  exact List.sorted_insertionSort priLE (collectPairs st cat)

theorem printOrder_pos_before_zero (st : TodoList) (cat : Option String) :
    ∀ (i j : Fin (printOrder st cat).length),
      1 ≤ ((printOrder st cat).get i).1 → ((printOrder st cat).get j).1 = 0 →
      (i : Nat) < (j : Nat) := by
  intro i j hi hj
  have hp := List.pairwise_iff_get.mp (printOrder_pairwise_ge st cat)
  rcases lt_trichotomy (i : Nat) (j : Nat) with h | h | h
  · exact h
  · exfalso
    rw [Fin.ext h, hj] at hi
    omega
  · exfalso
    have hle := hp j i h
    rw [hj] at hle
    omega

/-- Claim C1: the claim states that input whose first word matches no known
command synonym (and for which no default applies) yields a Help response
and never panics.  The source contradicts this: the `BugCommand::Help` arm
of `handle_message` is `todo!(..)`, which panics.  This theorem evaluates
the handler at the failing input `!bug foo bar`, whose first word `foo`
matches no synonym: the outcome is the panic, not a response. -/
theorem bug_unknown_word_panics :
    handle_message emptyBugList 42 "!bug foo bar" = .panicked := by decide

/-- Counterexample to claim C2: the grammar is not anchored at the end of
the input, so a fourth trailing field is accepted rather than rejected with
an error: parsing `a b c d` succeeds, yielding the fields `a`, `b`, `c` and
ignoring the trailing `d`. -/
theorem bug_report_accepts_trailing_field :
    parseBugReport "a b c d" = some ("a", "b", "c") := by decide

/-- Claim C2 (amended): parsing fails exactly when the committed
literal-space-literal-space-literal structure cannot be matched from the
start of the input.  In particular two-field inputs such as `"a" "b"` and
`a b` are rejected, as is a closed quoted literal followed directly by a
non-space character; but content trailing after the third field is ignored
rather than rejected, and a quoted literal with a missing closing marker
falls back to a bare field instead of failing. -/
theorem bug_report_failure_modes :
    parseBugReport "\"a\" \"b\"" = none ∧
    parseBugReport "a b" = none ∧
    parseBugReport "\"a\"x b c" = none ∧
    parseBugReport "a b c d" = some ("a", "b", "c") ∧
    parseBugReport "\"a b c" = some ("\"a", "b", "c") := by decide

/-- Counterexample to claim C3: priorities are 32-bit, so after exactly
`2 ^ 32` adds of a fresh key the stored priority has wrapped to 0 and is not
equal to the number of adds. -/
theorem todo_add_u32_wraps :
    priorityOf "k" (addN "k" ⟨0, "u"⟩ U32MOD (emptyList 0)) = 0 ∧
    priorityOf "k" (addN "k" ⟨0, "u"⟩ U32MOD (emptyList 0)) ≠ U32MOD := by
  have h := addN_priorityOf "k" ⟨0, "u"⟩ (emptyList 0) rfl U32MOD
    (by norm_num [U32MOD])
  rw [Nat.mod_self] at h
  exact ⟨h, by rw [h]; norm_num [U32MOD]⟩

/-- Claim C3 (amended): for a key absent from the list, applying Add(k)
exactly `n` times with `1 ≤ n < 2 ^ 32` yields priority `n` (the priority is
a wrapping 32-bit counter, so the bound is needed); the first call responds
with the Added form and every later call with the Updated form reporting the
new priority. -/
theorem todo_add_n_times (st : TodoList) (k : String) (a : User) (n : Nat)
    (h : lookupKey k st.items = none) (h1 : 1 ≤ n) (h2 : n < U32MOD) :
    priorityOf k (addN k a n st) = n ∧
    addRespAt k a 1 st = "Added item " ++ rustDebug k ++ " to your list" ∧
    ∀ m, 2 ≤ m → m ≤ n → addRespAt k a m st =
      "Updated item " ++ rustDebug k ++ ", priority is " ++ toString m := by
  refine ⟨?_, ?_, ?_⟩
  · rw [addN_priorityOf k a st h n h1, Nat.mod_eq_of_lt h2]
  · simp [addRespAt, addN, handle_command, h, defaultItem, one_mod_u32]
  · intro m hm2 hmn
    have hmM : m < U32MOD := lt_of_le_of_lt hmn h2
    have hlk := addN_lookup k a st h (m - 1) (by omega)
    simp only [addRespAt, handle_command, hlk, Option.getD_some]
    have e1 : (m - 1) % U32MOD + 1 = m := by
      rw [Nat.mod_eq_of_lt (by omega)]
      omega
    have e2 : m % U32MOD = m := Nat.mod_eq_of_lt hmM
    simp only [e1, e2]
    have hne1 : ¬ (m = 1) := by omega
    simp [hne1]

/-- Witness for the amended claim C3 at key `foo`, three adds on the empty
list. -/
theorem todo_add_n_times_witness :
    priorityOf "foo" (addN "foo" ⟨0, "u"⟩ 3 (emptyList 0)) = 3 ∧
    addRespAt "foo" ⟨0, "u"⟩ 1 (emptyList 0) =
      "Added item " ++ rustDebug "foo" ++ " to your list" ∧
    addRespAt "foo" ⟨0, "u"⟩ 2 (emptyList 0) =
      "Updated item " ++ rustDebug "foo" ++ ", priority is " ++ toString 2 :=
  ⟨(todo_add_n_times (emptyList 0) "foo" ⟨0, "u"⟩ 3 rfl (by norm_num)
      (by norm_num [U32MOD])).1,
   (todo_add_n_times (emptyList 0) "foo" ⟨0, "u"⟩ 3 rfl (by norm_num)
      (by norm_num [U32MOD])).2.1,
   (todo_add_n_times (emptyList 0) "foo" ⟨0, "u"⟩ 3 rfl (by norm_num)
      (by norm_num [U32MOD])).2.2 2 (by norm_num) (by norm_num)⟩

/-- Claim C8: the claim states that the bare, double-quoted and
triple-quoted spellings of the same content all tokenize to the fields `a`,
`b`, `c` after quote-marker stripping.  The grammar indeed matches all three
inputs with raw fields that strip (via `trim_matches('\x22')`) to the same
triple, as the first three conjuncts show — but the extraction code never
produces them: the source calls `next()` on the top-level `Pairs` without
`into_inner()`, so the second `next()` returns `None` and
`expect("parser says this exists")` panics, as the last three conjuncts show
by evaluating the handler on each of the claim's inputs. -/
theorem tokenizer_extraction_panics :
    (parseBugReport "\"a\" \"b\" \"c\"").map
        (fun f => (trimQuotes f.1, trimQuotes f.2.1, trimQuotes f.2.2)) =
      some ("a", "b", "c") ∧
    (parseBugReport "a b c").map
        (fun f => (trimQuotes f.1, trimQuotes f.2.1, trimQuotes f.2.2)) =
      some ("a", "b", "c") ∧
    (parseBugReport "\"\"\"a\"\"\" \"b\" c").map
        (fun f => (trimQuotes f.1, trimQuotes f.2.1, trimQuotes f.2.2)) =
      some ("a", "b", "c") ∧
    handle_message emptyBugList 42 "!bug report \"a\" \"b\" \"c\"" =
      .panicked ∧
    handle_message emptyBugList 42 "!bug report a b c" = .panicked ∧
    handle_message emptyBugList 42 "!bug report \"\"\"a\"\"\" \"b\" c" =
      .panicked := by decide

/-- Claim C10: every TODO command leaves the list's `user_id` unchanged, and
the Print command leaves the whole list unchanged. -/
theorem todo_commands_preserve_user_id :
    ∀ (cmd : TodoCommand) (st : TodoList) (a : User),
      (handle_command cmd st a).1.user_id = st.user_id ∧
      ∀ cat, (handle_command (.print cat) st a).1 = st := by
  intro cmd st a
  constructor
  · cases cmd <;> simp [handle_command]
  · intro cat
    simp [handle_command]

/-- Claim C4: PlusOne on an absent bug number returns the not-found message
and leaves the list unchanged; PlusOne on a present bug appends the caller
to that bug's `plus_ones` (growing it by exactly one, even when the caller
is already present), changes no other entry, and reports the count
`len(plus_ones) - 1` measured after the append. -/
theorem bug_plus_one_spec (st : BugList) (uid n : Nat) (rest : String) :
    (lookupBug n st.items = none →
      plusOneArm uid n rest st =
        (st, "I couldn\x27t find a bug with the number " ++ rest ++
          " in the global list.")) ∧
    ∀ e, lookupBug n st.items = some e →
      lookupBug n (plusOneArm uid n rest st).1.items =
        some ⟨e.number, e.priority, e.status, e.labels, e.name, e.summary,
          e.details, e.reporter, e.plus_ones ++ [uid]⟩ ∧
      (e.plus_ones ++ [uid]).length = e.plus_ones.length + 1 ∧
      (∀ m, m ≠ n → lookupBug m (plusOneArm uid n rest st).1.items =
        lookupBug m st.items) ∧
      (plusOneArm uid n rest st).2 =
        "I\x27m sorry to hear that you\x27re also experiencing this issue.\nAt least you\x27ve got " ++
          toString ((e.plus_ones ++ [uid]).length - 1) ++
          " other(s) for company." := by
  constructor
  · intro h
    simp [plusOneArm, h]
  · intro e he
    refine ⟨?_, by simp, ?_, ?_⟩
    · simp only [plusOneArm, he]
      exact lookupBug_updateBug_self n _ st.items
    · intro m hm
      simp only [plusOneArm, he]
      exact lookupBug_updateBug_ne n m _ hm st.items
    · simp [plusOneArm, he]

/-- Witness for claim C4: a one-bug list; number 2 is absent, number 1 is
present with one prior plus-one. -/
theorem bug_plus_one_spec_witness :
    plusOneArm 9 2 "2" plusOneState =
      (plusOneState, "I couldn\x27t find a bug with the number 2 in the global list.") ∧
    lookupBug 1 (plusOneArm 9 1 "1" plusOneState).1.items =
      some ⟨1, 0, .open, [], "n", "s", "d", 3, [5, 9]⟩ :=
  ⟨(bug_plus_one_spec plusOneState 9 2 "2").1 (by decide),
   by
     have h := ((bug_plus_one_spec plusOneState 9 1 "1").2
       ⟨1, 0, .open, [], "n", "s", "d", 3, [5]⟩ (by decide)).1
     simpa using h⟩

/-- Claim C5: when the displayed (filtered) items have pairwise distinct
priorities, the print order is strictly descending in priority. -/
theorem todo_print_descending (st : TodoList) (cat : Option String)
    (h : ((collectPairs st cat).map Prod.fst).Pairwise (· ≠ ·)) :
    ((printOrder st cat).map Prod.fst).Pairwise (· > ·) := by
  have hne : (collectPairs st cat).Pairwise (fun a b => a.1 ≠ b.1) :=
    List.pairwise_map.mp h
  have hperm := List.perm_insertionSort priLE (collectPairs st cat)
  have hne2 : (List.insertionSort priLE (collectPairs st cat)).Pairwise
      (fun a b => a.1 ≠ b.1) :=
    (hperm.pairwise_iff (fun hxy => Ne.symm hxy)).mpr hne
  have hsorted : (List.insertionSort priLE (collectPairs st cat)).Pairwise
      priLE := List.sorted_insertionSort priLE (collectPairs st cat)
  have hlt : (List.insertionSort priLE (collectPairs st cat)).Pairwise
      (fun a b => a.1 < b.1) :=
    (hsorted.and hne2).imp (fun hab => lt_of_le_of_ne hab.1 hab.2)
  have hrev : (printOrder st cat).Pairwise (fun a b => b.1 < a.1) := by
    rw [printOrder, List.pairwise_reverse]
    exact hlt
  exact List.pairwise_map.mpr hrev

/-- Witness for claim C5: a two-item list with distinct priorities 2 and 1
prints in strictly descending priority order. -/
theorem todo_print_descending_witness :
    ((collectPairs twoItemState none).map Prod.fst).Pairwise (· ≠ ·) ∧
    ((printOrder twoItemState none).map Prod.fst).Pairwise (· > ·) :=
  ⟨by decide, todo_print_descending twoItemState none (by decide)⟩

/-- Claim C7: the claim states that Report, when the tokenizer parse
succeeds, inserts a new bug numbered item count plus 1 and acknowledges; on
the empty list, number 1 with the response text Added bug #1 "N" to the
list.  The source never reaches the insert: after a successful parse it
calls `next()` twice more on the top-level `Pairs` without `into_inner()`,
and the second `next()` returns `None`, so
`expect("parser says this exists")` panics.  The first conjunct shows that
the parse of the claimed scenario input does succeed at the grammar level;
the second evaluates the handler on that scenario (a Report on the empty
list) and reaches the panic outcome instead of the insert-and-respond
result. -/
theorem bug_report_always_panics :
    parseBugReport (trimStr "\"\"\"N\"\"\" \"S\" D") =
      some ("\"\"\"N\"\"\"", "\"S\"", "D") ∧
    handle_message emptyBugList 42 "!bug report \"\"\"N\"\"\" \"S\" D" =
      .panicked := by decide

/-- Counterexample to claim C9: the claim's justification that items added
at least once have priority at least 1 fails for the wrapping 32-bit
priority counter: an item added exactly `2 ^ 32` times has priority 0, so
the never-added finished item (also priority 0) is not guaranteed to render
below it. -/
theorem todo_added_priority_wraps_to_zero :
    ¬ 1 ≤ priorityOf "item" (addN "item" ⟨1, "v"⟩ U32MOD (emptyList 1)) := by
  have h := addN_priorityOf "item" ⟨1, "v"⟩ (emptyList 1) rfl U32MOD
    (by norm_num [U32MOD])
  rw [Nat.mod_self] at h
  simp [h]

/-- Claim C9 (amended): finishing a key absent from the list inserts a fresh
entry with priority 0, done, and no category, and still responds with the
normal confirmation; in any print order every priority-0 entry (such as this
one) renders below every entry of positive priority; and an item added
between 1 and `2 ^ 32 - 1` times has positive priority (the bound is needed
because the 32-bit priority wraps). -/
theorem todo_finish_fresh_item (st : TodoList) (a : User) (k : String)
    (h : lookupKey k st.items = none) :
    lookupKey k (handle_command (.finish k) st a).1.items =
      some ⟨0, true, none⟩ ∧
    (handle_command (.finish k) st a).2 =
      "Marked " ++ rustDebug k ++ " as done" ∧
    (∀ (i j : Fin (printOrder (handle_command (.finish k) st a).1
        none).length),
      1 ≤ ((printOrder (handle_command (.finish k) st a).1 none).get i).1 →
      ((printOrder (handle_command (.finish k) st a).1 none).get j).1 = 0 →
      (i : Nat) < (j : Nat)) ∧
    ∀ st' n, lookupKey k st'.items = none → 1 ≤ n → n < U32MOD →
      1 ≤ priorityOf k (addN k a n st') := by
  refine ⟨?_, ?_, printOrder_pos_before_zero _ none, ?_⟩
  · simp only [handle_command]
    rw [lookup_updateKey_self]
    simp [h, defaultItem]
  · simp [handle_command]
  · intro st' n h' h1 h2
    rw [addN_priorityOf k a st' h' n h1, Nat.mod_eq_of_lt h2]
    exact h1

/-- Witness for the amended claim C9: finishing the absent key `c` on a
two-item list inserts the fresh done entry and responds normally, and one
add of `c` on an empty list gives it positive priority. -/
theorem todo_finish_fresh_item_witness :
    lookupKey "c" (handle_command (.finish "c") twoItemState ⟨0, "u"⟩).1.items =
      some ⟨0, true, none⟩ ∧
    (handle_command (.finish "c") twoItemState ⟨0, "u"⟩).2 =
      "Marked " ++ rustDebug "c" ++ " as done" ∧
    1 ≤ priorityOf "c" (addN "c" ⟨0, "u"⟩ 1 (emptyList 5)) :=
  ⟨(todo_finish_fresh_item twoItemState ⟨0, "u"⟩ "c" (by decide)).1,
   (todo_finish_fresh_item twoItemState ⟨0, "u"⟩ "c" (by decide)).2.1,
   (todo_finish_fresh_item twoItemState ⟨0, "u"⟩ "c" (by decide)).2.2.2
     (emptyList 5) 1 rfl le_rfl (by norm_num [U32MOD])⟩
